import Mathlib

/-!
Shallow embedding of the per-delivery scoring computations of the
score_wise cricket scorer, together with theorems settling the spec
claims about them.  Each definition is translated from the TypeScript
source file named in its doc comment; JS numbers that stay integral are
modelled as `Nat`, fractional arithmetic as `ℚ`, and display-only
string formatting (`toFixed`) as rounding to two decimals on `ℚ`.
-/

namespace ScoreWise

/-- Modelled from the spec: the closed dismissal-kind set
{bowled, caught, lbw, run-out, stumped, hit-wicket, retired} of the data
model (the file `types/cricket.ts` defining `WicketType` is not under
`src/`; the components compare `wicketType` against the string
`run_out`). -/
inductive WicketType where
  | bowled
  | caught
  | lbw
  | runOut
  | stumped
  | hitWicket
  | retired
deriving DecidableEq, Repr

/-- A player, identified by `id` (display name omitted). -/
structure Player where
  id : Nat
deriving DecidableEq, Repr

/-- A delivery record (`Ball` of `types/cricket.ts`, fields as used by the
components under verification).  `innings` is `Option Nat` because the
components test `!ball.innings`, i.e. the field may be absent. -/
structure Ball where
  striker : Player
  nonStriker : Player
  bowler : Player
  runs : Nat
  isWide : Bool
  isNoBall : Bool
  isBye : Bool
  isLegBye : Bool
  isWicket : Bool
  wicketType : Option WicketType
  wicketFielder : Option Player
  innings : Option Nat
deriving DecidableEq, Repr

/-- Result record of `calculateBatsmanStats` in `CompactPlayerStats.tsx`
(the display-only `strikeRate` string is omitted). -/
structure BatsmanStats where
  runs : Nat
  ballsFaced : Nat
  fours : Nat
  sixes : Nat
deriving DecidableEq, Repr

/-- `calculateBatsmanStats` from `CompactPlayerStats.tsx` (lines 9-23). -/
def calculateBatsmanStats (player : Player) (matchBalls : List Ball) : BatsmanStats :=
  let playerBalls := matchBalls.filter (fun b => b.striker.id == player.id)
  let runs := playerBalls.foldl
    (fun sum ball =>
      if !ball.isWide && !ball.isNoBall && !ball.isBye && !ball.isLegBye then
        sum + ball.runs
      else
        sum) 0
  let ballsFaced := (playerBalls.filter (fun b => !b.isWide && !b.isNoBall)).length
  let fours := (playerBalls.filter (fun b => b.runs == 4)).length
  let sixes := (playerBalls.filter (fun b => b.runs == 6)).length
  ⟨runs, ballsFaced, fours, sixes⟩

/-- Result record of `calculateBowlerStats` in `CompactPlayerStats.tsx`
(the display-only `economy` string is omitted). -/
structure BowlerStats where
  runs : Nat
  ballsBowled : Nat
  wickets : Nat
  maidens : Nat
  overs : Nat
  remainingBalls : Nat
deriving DecidableEq, Repr

/-- `calculateBowlerStats` from `CompactPlayerStats.tsx` (lines 25-36);
`maidens` is the source's hardcoded `0`. -/
def calculateBowlerStats (player : Player) (matchBalls : List Ball) : BowlerStats :=
  let bowlerBalls := matchBalls.filter (fun b => b.bowler.id == player.id)
  let runs := bowlerBalls.foldl (fun sum ball => sum + ball.runs) 0
  let ballsBowled := (bowlerBalls.filter (fun b => !b.isWide && !b.isNoBall)).length
  let wickets :=
    (bowlerBalls.filter (fun b => b.isWicket && b.wicketType != some WicketType.runOut)).length
  let maidens := 0
  ⟨runs, ballsBowled, wickets, maidens, ballsBowled / 6, ballsBowled % 6⟩

/-- Result record of `calculateBowlerStats` in the `LiveStatsBar`
component (display-only `economy` string omitted). -/
structure LiveBowlerStats where
  runs : Nat
  ballsBowled : Nat
  wickets : Nat
  dotBalls : Nat
  overs : Nat
  remainingBalls : Nat
deriving DecidableEq, Repr

/-- `calculateBowlerStats` from the `LiveStatsBar` component
(`src/unnamed/part_002`, lines 35-46). -/
def liveStatsBarBowlerStats (player : Player) (balls : List Ball) : LiveBowlerStats :=
  let bowlerBalls := balls.filter (fun b => b.bowler.id == player.id)
  let runs := bowlerBalls.foldl (fun sum ball => sum + ball.runs) 0
  let ballsBowled := (bowlerBalls.filter (fun b => !b.isWide && !b.isNoBall)).length
  let wickets :=
    (bowlerBalls.filter (fun b => b.isWicket && b.wicketType != some WicketType.runOut)).length
  let dotBalls := (bowlerBalls.filter (fun b => !b.isWide && !b.isNoBall && b.runs == 0)).length
  ⟨runs, ballsBowled, wickets, dotBalls, ballsBowled / 6, ballsBowled % 6⟩

/-- Result record of `calculateBattingStats` in the
`DetailedScorecardModal` component (display-only `strikeRate` omitted). -/
structure ModalBattingStats where
  runs : Nat
  balls : Nat
  fours : Nat
  sixes : Nat
  gotOut : Bool
deriving DecidableEq, Repr

/-- `calculateBattingStats` from the `DetailedScorecardModal` component
(`CompactPlayerStats.tsx` combined file, lines 128-158): a single
`forEach` accumulation over the striker's deliveries. -/
def calculateBattingStats (player : Player) (matchBalls : List Ball) : ModalBattingStats :=
  let battingBalls := matchBalls.filter (fun b => b.striker.id == player.id)
  battingBalls.foldl
    (fun acc ball =>
      ⟨if !ball.isWide && !ball.isNoBall && !ball.isBye && !ball.isLegBye then
          acc.runs + ball.runs
        else
          acc.runs,
        if !ball.isWide && !ball.isNoBall then acc.balls + 1 else acc.balls,
        if ball.runs == 4 then acc.fours + 1 else acc.fours,
        if ball.runs == 6 then acc.sixes + 1 else acc.sixes,
        acc.gotOut || (ball.isWicket && ball.striker.id == player.id)⟩)
    ⟨0, 0, 0, 0, false⟩

/-- `formatOvers` from `ScoreDisplay.tsx` (lines 10-14); the source
renders the pair as the string `overs.remainingBalls`. -/
def formatOvers (balls : Nat) : Nat × Nat :=
  (balls / 6, balls % 6)

/-- JS evaluation of one call of the `ballsFaced` filter callback of
`calculateBatsmanStats` in the `LiveStatsBar` component
(`src/unnamed/part_002`, line 26): `b => !b.isWide && !ball.isNoBall`.
The name `ball` has no enclosing binding there (it is the parameter of
the separate `reduce` callback two lines above), so evaluating the right
conjunct raises a `ReferenceError`; `&&` short-circuits, so on a wide
delivery the callback returns `false` without reaching the error. -/
def liveBallsFacedCallback (b : Ball) : Except String Bool :=
  if b.isWide then Except.ok false
  else Except.error "ReferenceError: ball is not defined"

/-- `Array.prototype.filter` with a callback that may throw: elements are
visited left to right and the first raised error aborts the call; only
the length of the filtered list is needed here. -/
def exceptCountP (p : Ball → Except String Bool) : List Ball → Except String Nat
  | [] => Except.ok 0
  | b :: bs => do
    let keep ← p b
    let n ← exceptCountP p bs
    pure (if keep then n + 1 else n)

/-- Result record of `calculateBatsmanStats` in the `LiveStatsBar`
component (display-only `strikeRate` omitted). -/
structure LiveBatsmanStats where
  runs : Nat
  ballsFaced : Nat
  fours : Nat
  sixes : Nat
  dotBalls : Nat
deriving DecidableEq, Repr

/-- `calculateBatsmanStats` from the `LiveStatsBar` component
(`src/unnamed/part_002`, lines 18-33), with JS exception semantics for
the out-of-scope `ball` reference in the `ballsFaced` filter.  The
`runs` reduce (evaluated before the faulty filter) is unaffected. -/
def liveStatsBarBatsmanStats (player : Player) (balls : List Ball) :
    Except String LiveBatsmanStats :=
  let playerBalls := balls.filter (fun b => b.striker.id == player.id)
  let runs := playerBalls.foldl
    (fun sum ball =>
      if !ball.isWide && !ball.isNoBall && !ball.isBye && !ball.isLegBye then
        sum + ball.runs
      else
        sum) 0
  do
    let ballsFaced ← exceptCountP liveBallsFacedCallback playerBalls
    let fours := (playerBalls.filter (fun b => b.runs == 4)).length
    let sixes := (playerBalls.filter (fun b => b.runs == 6)).length
    let dotBalls := (playerBalls.filter (fun b => !b.isWide && !b.isNoBall && b.runs == 0)).length
    pure ⟨runs, ballsFaced, fours, sixes, dotBalls⟩

/-- Result record of `calculateBatsmanStats` in the `LiveScoreboard`
component (display-only `strikeRate` omitted). -/
structure LiveScoreboardBatStats where
  runs : Nat
  ballsFaced : Nat
  fours : Nat
  sixes : Nat
deriving DecidableEq, Repr

/-- `calculateBatsmanStats` from the `LiveScoreboard` component
(`src/unnamed/part_003`, lines 245-254): unlike the `CompactPlayerStats`
copy, `runs` sums every delivery's runs with no extra-flag condition. -/
def liveScoreboardBatsmanStats (player : Player) (balls : List Ball) : LiveScoreboardBatStats :=
  let playerBalls := balls.filter (fun b => b.striker.id == player.id)
  let runs := playerBalls.foldl (fun sum ball => sum + ball.runs) 0
  let ballsFaced := (playerBalls.filter (fun b => !b.isWide && !b.isNoBall)).length
  let fours := (playerBalls.filter (fun b => b.runs == 4)).length
  let sixes := (playerBalls.filter (fun b => b.runs == 6)).length
  ⟨runs, ballsFaced, fours, sixes⟩

/-- Claim-side tally for C1, following the claim's words: a delivery is
counted iff it is bowled by the bowler and is a wicket whose kind is one
of bowled, caught, lbw, stumped, or hit-wicket. -/
def claimedBowlerWickets (player : Player) (balls : List Ball) : Nat :=
  balls.countP (fun b => b.bowler.id == player.id && b.isWicket &&
    (b.wicketType == some WicketType.bowled || b.wicketType == some WicketType.caught ||
      b.wicketType == some WicketType.lbw || b.wicketType == some WicketType.stumped ||
      b.wicketType == some WicketType.hitWicket))

/-- A retired dismissal bowled by player 3. -/
def retiredWicketBall : Ball :=
  ⟨⟨1⟩, ⟨2⟩, ⟨3⟩, 0, false, false, false, false, true, some WicketType.retired, none, some 1⟩

/-- A plain single off the bat, faced by player 1. -/
def plainSingleBall : Ball :=
  ⟨⟨1⟩, ⟨2⟩, ⟨3⟩, 1, false, false, false, false, false, none, none, some 1⟩

/-- Claim-side fours tally for C2, following the claim's words: only a
plain delivery (none of the four extra flags) with exactly 4 runs is a
four. -/
def claimedFours (player : Player) (balls : List Ball) : Nat :=
  balls.countP (fun b => b.striker.id == player.id &&
    (!b.isWide && !b.isNoBall && !b.isBye && !b.isLegBye) && b.runs == 4)

/-- A wide on which the batsmen ran 4, faced by player 1. -/
def wideFourBall : Ball :=
  ⟨⟨1⟩, ⟨2⟩, ⟨3⟩, 4, true, false, false, false, false, none, none, some 1⟩

/-- A no-ball (not bye or leg-bye) with 2 runs run, faced by player 1. -/
def noBallTwoBall : Ball :=
  ⟨⟨1⟩, ⟨2⟩, ⟨3⟩, 2, false, true, false, false, false, none, none, some 1⟩

/-- A bye with 1 run, faced by player 1. -/
def byeBall : Ball :=
  ⟨⟨1⟩, ⟨2⟩, ⟨3⟩, 1, false, false, true, false, false, none, none, some 1⟩

/-- Runs run on the player's extra-flagged deliveries: the difference
term between the `LiveScoreboard` and `CompactPlayerStats` batsman-runs
projections. -/
def extraFlaggedRuns (player : Player) (balls : List Ball) : Nat :=
  (((balls.filter (fun b => b.striker.id == player.id)).filter
      (fun b => b.isWide || b.isNoBall || b.isBye || b.isLegBye)).map Ball.runs).sum

/-- JS falsiness of the optional `innings` field (`!ball.innings` is
true when the field is absent or `0`). -/
def jsFalsyNat : Option Nat → Bool
  | none => true
  | some n => n == 0

/-- The innings filter of `calculatePartnership` in `ScoreDisplay.tsx`
(lines 35-38). -/
def currentInningsBalls (isSecondInnings : Bool) (balls : List Ball) : List Ball :=
  balls.filter (fun ball =>
    (!isSecondInnings && (ball.innings == some 1 || jsFalsyNat ball.innings)) ||
    (isSecondInnings && ball.innings == some 2))

/-- The `lastWicketIndex` computation of `calculatePartnership` in
`ScoreDisplay.tsx` (lines 40-42):
`map((ball, index) => ball.isWicket ? index : -1).filter(i => i !== -1).pop() || -1`.
JS `pop()` yields `undefined` on an empty array, and `|| -1` replaces
both `undefined` and the falsy index `0` by `-1`. -/
def lastWicketIndexJS (balls : List Ball) : Int :=
  let mapped := balls.enum.map (fun p => if p.2.isWicket then (p.1 : Int) else -1)
  let wicketIdxs := mapped.filter (fun i => i != -1)
  match wicketIdxs.getLast? with
  | none => -1
  | some i => if i == 0 then -1 else i

/-- `calculatePartnership` from `ScoreDisplay.tsx` (lines 32-47),
returning the pair (runs, balls). -/
def calculatePartnership (currentStriker currentNonStriker : Option Player)
    (isSecondInnings : Bool) (balls : List Ball) : Nat × Nat :=
  match currentStriker, currentNonStriker with
  | some _, some _ =>
    let inningsBalls := currentInningsBalls isSecondInnings balls
    let lastWicketIndex := lastWicketIndexJS inningsBalls
    let partnershipBalls := inningsBalls.drop (lastWicketIndex + 1).toNat
    let runs := partnershipBalls.foldl (fun sum ball => sum + ball.runs) 0
    let ballCount := (partnershipBalls.filter (fun ball => !ball.isWide && !ball.isNoBall)).length
    (runs, ballCount)
  | _, _ => (0, 0)

/-- Claim-side partnership for C7, following the claim's words: the runs
and the count of deliveries that are neither wide nor no-ball, over the
innings deliveries strictly after the most recent wicket delivery (the
whole innings when no wicket has fallen). -/
def refPartnership (isSecondInnings : Bool) (balls : List Ball) : Nat × Nat :=
  let inningsBalls := currentInningsBalls isSecondInnings balls
  let suffix :=
    match (inningsBalls.enum.filter (fun p => p.2.isWicket)).getLast? with
    | none => inningsBalls
    | some p => inningsBalls.drop (p.1 + 1)
  ((suffix.map Ball.runs).sum,
    (suffix.filter (fun ball => !ball.isWide && !ball.isNoBall)).length)

/-- A first-innings wicket delivery on which 4 runs were run (for
example an overthrown run-out), bowled to player 1. -/
def firstBallWicket : Ball :=
  ⟨⟨1⟩, ⟨2⟩, ⟨3⟩, 4, false, false, false, false, true, some WicketType.runOut, some ⟨4⟩, some 1⟩

/-- JS `Number(x.toFixed(2))`: rounding to two decimals (ties rounded
half up, matching `toFixed` on the values arising here). -/
def toFixed2 (q : ℚ) : ℚ := ((round (q * 100) : ℤ) : ℚ) / 100

/-- The fields of a stored `Match` used by
`GroupDashboard.calculatePlayerStats`. -/
structure GDMatch where
  team1Players : List Player
  team2Players : List Player
  balls : List Ball
  manOfTheMatchId : Option Nat
deriving DecidableEq, Repr

/-- The batting accumulator of `GroupDashboard.calculatePlayerStats`. -/
structure GDBattingTotals where
  runs : Nat
  balls : Nat
  fours : Nat
  sixes : Nat
  highestScore : Nat
deriving DecidableEq, Repr

/-- The bowling accumulator of `GroupDashboard.calculatePlayerStats`;
`overs` accumulates the fractional `balls.length / 6`. -/
structure GDBowlingTotals where
  wickets : Nat
  overs : ℚ
  runsConceded : Nat
deriving DecidableEq, Repr

/-- The fielding accumulator of `GroupDashboard.calculatePlayerStats`. -/
structure GDFieldingTotals where
  catches : Nat
  stumpings : Nat
  runOuts : Nat
deriving DecidableEq, Repr

/-- The per-player record built by `GroupDashboard.calculatePlayerStats`
(the `bestBowling` display string is omitted, and the source's `matches`
field is spelled `matchesPlayed`, `matches` being reserved in Lean). -/
structure GDPlayerStats where
  matchesPlayed : Nat
  runs : Nat
  balls : Nat
  fours : Nat
  sixes : Nat
  highestScore : Nat
  wickets : Nat
  overs : ℚ
  runsConceded : Nat
  catches : Nat
  stumpings : Nat
  runOuts : Nat
  average : ℚ
  strikeRate : ℚ
  economy : ℚ
  fifties : Nat
  hundreds : Nat
  motmAwards : Nat
deriving DecidableEq, Repr

/-- The `playerMatches` filter of `GroupDashboard.calculatePlayerStats`
(lines 77-80). -/
def playerMatches (player : Player) (ms : List GDMatch) : List GDMatch :=
  ms.filter (fun m => m.team1Players.any (fun p => p.id == player.id) ||
    m.team2Players.any (fun p => p.id == player.id))

/-- The `battingStats` reduce of `GroupDashboard.calculatePlayerStats`
(lines 82-96). -/
def gdBattingTotals (player : Player) (ms : List GDMatch) : GDBattingTotals :=
  ms.foldl
    (fun acc m =>
      let balls := m.balls.filter (fun b => b.striker.id == player.id)
      let runs := balls.foldl (fun sum b => sum + b.runs) 0
      let fours := (balls.filter (fun b => b.runs == 4)).length
      let sixes := (balls.filter (fun b => b.runs == 6)).length
      let highestScore := balls.foldl (fun mx b => max mx b.runs) 0
      ⟨acc.runs + runs, acc.balls + balls.length, acc.fours + fours,
        acc.sixes + sixes, max acc.highestScore highestScore⟩)
    ⟨0, 0, 0, 0, 0⟩

/-- The `bowlingStats` reduce of `GroupDashboard.calculatePlayerStats`
(lines 98-108). -/
def gdBowlingTotals (player : Player) (ms : List GDMatch) : GDBowlingTotals :=
  ms.foldl
    (fun acc m =>
      let balls := m.balls.filter (fun b => b.bowler.id == player.id)
      let wickets :=
        (balls.filter (fun b => b.isWicket && b.wicketType != some WicketType.runOut)).length
      let runs := balls.foldl (fun sum b => sum + b.runs) 0
      ⟨acc.wickets + wickets, acc.overs + (balls.length : ℚ) / 6, acc.runsConceded + runs⟩)
    ⟨0, 0, 0⟩

/-- The `fieldingStats` reduce of `GroupDashboard.calculatePlayerStats`
(lines 110-120). -/
def gdFieldingTotals (player : Player) (ms : List GDMatch) : GDFieldingTotals :=
  ms.foldl
    (fun acc m =>
      let catches := (m.balls.filter (fun b =>
        b.wicketFielder.any (fun f => f.id == player.id) &&
          b.wicketType == some WicketType.caught)).length
      let stumpings := (m.balls.filter (fun b =>
        b.wicketFielder.any (fun f => f.id == player.id) &&
          b.wicketType == some WicketType.stumped)).length
      let runOuts := (m.balls.filter (fun b =>
        b.wicketFielder.any (fun f => f.id == player.id) &&
          b.wicketType == some WicketType.runOut)).length
      ⟨acc.catches + catches, acc.stumpings + stumpings, acc.runOuts + runOuts⟩)
    ⟨0, 0, 0⟩

/-- `calculatePlayerStats` from `GroupDashboard.tsx` (lines 75-140), for
one player.  JS `x || 1` on the divisors is modelled by the zero test;
`Number(rate.toFixed(2))` by `toFixed2`. -/
def calculatePlayerStats (player : Player) (ms : List GDMatch) : GDPlayerStats :=
  let pms := playerMatches player ms
  let battingStats := gdBattingTotals player pms
  let bowlingStats := gdBowlingTotals player pms
  let fieldingStats := gdFieldingTotals player pms
  let average : ℚ := (battingStats.runs : ℚ) /
    (if battingStats.balls = 0 then 1 else (battingStats.balls : ℚ))
  let strikeRate : ℚ := ((battingStats.runs : ℚ) /
    (if battingStats.balls = 0 then 1 else (battingStats.balls : ℚ))) * 100
  let economy : ℚ := (bowlingStats.runsConceded : ℚ) /
    (if bowlingStats.overs = 0 then 1 else bowlingStats.overs)
  ⟨pms.length, battingStats.runs, battingStats.balls, battingStats.fours,
    battingStats.sixes, battingStats.highestScore, bowlingStats.wickets,
    bowlingStats.overs, bowlingStats.runsConceded, fieldingStats.catches,
    fieldingStats.stumpings, fieldingStats.runOuts, toFixed2 average,
    toFixed2 strikeRate, toFixed2 economy, battingStats.runs / 50,
    battingStats.runs / 100,
    (pms.filter (fun m => m.manOfTheMatchId == some player.id)).length⟩

/-- Total runs scored by the player across their matches, summed match
by match over the striker-filtered deliveries. -/
def totalRunsScored (player : Player) (ms : List GDMatch) : Nat :=
  ((playerMatches player ms).map (fun m =>
    ((m.balls.filter (fun b => b.striker.id == player.id)).map Ball.runs).sum)).sum

/-- Total deliveries faced by the player across their matches. -/
def totalBallsFaced (player : Player) (ms : List GDMatch) : Nat :=
  ((playerMatches player ms).map (fun m =>
    (m.balls.filter (fun b => b.striker.id == player.id)).length)).sum

/-- Total runs conceded by the player as bowler across their matches. -/
def totalRunsConceded (player : Player) (ms : List GDMatch) : Nat :=
  ((playerMatches player ms).map (fun m =>
    ((m.balls.filter (fun b => b.bowler.id == player.id)).map Ball.runs).sum)).sum

/-- Total deliveries bowled by the player across their matches. -/
def totalBallsBowled (player : Player) (ms : List GDMatch) : Nat :=
  ((playerMatches player ms).map (fun m =>
    (m.balls.filter (fun b => b.bowler.id == player.id)).length)).sum

/-- Claim-side dismissal count for C5, following the claim's words:
deliveries on which the player was out as striker, across their
matches. -/
def specTimesOut (player : Player) (ms : List GDMatch) : Nat :=
  ((playerMatches player ms).map (fun m =>
    (m.balls.filter (fun b => b.isWicket && b.striker.id == player.id)).length)).sum

/-- Claim-side batting average for C5, following the claim's words: runs
scored divided by times dismissed. -/
def specBattingAverage (player : Player) (ms : List GDMatch) : ℚ :=
  (totalRunsScored player ms : ℚ) / (specTimesOut player ms : ℚ)

/-- A plain boundary four off the bat of player 1. -/
def plainFourBall : Ball :=
  ⟨⟨1⟩, ⟨2⟩, ⟨3⟩, 4, false, false, false, false, false, none, none, some 1⟩

/-- Player 1 bowled for no run. -/
def bowledDismissalBall : Ball :=
  ⟨⟨1⟩, ⟨2⟩, ⟨3⟩, 0, false, false, false, false, true, some WicketType.bowled, none, some 1⟩

/-- A completed match in which player 1 scored 4 off 2 deliveries and
was dismissed once. -/
def statsMatch : GDMatch :=
  ⟨[⟨1⟩], [⟨2⟩, ⟨3⟩], [plainFourBall, bowledDismissalBall], none⟩

/-- C8: for every bowler and every list of deliveries, the maiden-overs
figure produced for display is the hardcoded zero of the source. -/
theorem maidens_always_zero (player : Player) (matchBalls : List Ball) :
    (calculateBowlerStats player matchBalls).maidens = 0 := rfl

/-- C6: the displayed overs figures satisfy the division identity: the
legal-delivery count equals `overs * 6 + remainder` with the remainder
at most 5, for the bowler figures of `CompactPlayerStats`, those of
`LiveStatsBar`, and `formatOvers` of `ScoreDisplay`. -/
theorem overs_division_identity (player : Player) (matchBalls : List Ball) (n : Nat) :
    ((calculateBowlerStats player matchBalls).overs * 6 +
        (calculateBowlerStats player matchBalls).remainingBalls =
      (calculateBowlerStats player matchBalls).ballsBowled ∧
      (calculateBowlerStats player matchBalls).remainingBalls < 6) ∧
    ((liveStatsBarBowlerStats player matchBalls).overs * 6 +
        (liveStatsBarBowlerStats player matchBalls).remainingBalls =
      (liveStatsBarBowlerStats player matchBalls).ballsBowled ∧
      (liveStatsBarBowlerStats player matchBalls).remainingBalls < 6) ∧
    ((formatOvers n).1 * 6 + (formatOvers n).2 = n ∧ (formatOvers n).2 < 6) := by
  refine ⟨⟨?_, ?_⟩, ⟨?_, ?_⟩, ?_, ?_⟩ <;>
    simp only [calculateBowlerStats, liveStatsBarBowlerStats, formatOvers] <;> omega

/-- C1 counterexample: a retired dismissal does increment the bowler's
wicket tally in the source, while the claim's tally excludes it. -/
theorem retired_dismissal_counted :
    (calculateBowlerStats ⟨3⟩ [retiredWicketBall]).wickets ≠
      claimedBowlerWickets ⟨3⟩ [retiredWicketBall] := by decide

/-- C1 (amended): the wicket tally counts a delivery iff it is bowled by
the bowler and is a wicket whose kind is not run-out; in particular a
retired dismissal does increment the tally.  Holds for both the
`CompactPlayerStats` and the `LiveStatsBar` computation. -/
theorem bowler_wickets_count_non_runout (player : Player) (matchBalls : List Ball) :
    (calculateBowlerStats player matchBalls).wickets =
      matchBalls.countP (fun b => b.bowler.id == player.id &&
        (b.isWicket && b.wicketType != some WicketType.runOut)) ∧
    (liveStatsBarBowlerStats player matchBalls).wickets =
      matchBalls.countP (fun b => b.bowler.id == player.id &&
        (b.isWicket && b.wicketType != some WicketType.runOut)) := by
  constructor <;>
    simp [calculateBowlerStats, liveStatsBarBowlerStats,
      List.countP_eq_length_filter, List.filter_filter,
      Bool.and_comm, Bool.and_assoc, Bool.and_left_comm]

/-- C9: evaluating `LiveStatsBar.calculateBatsmanStats` on a striker who
faced one plain delivery aborts with the `ReferenceError` raised by the
out-of-scope `ball` in the `ballsFaced` filter; on an empty ledger the
filter callback never runs and a stats record is returned. -/
theorem liveStatsBar_batsman_reference_error :
    liveStatsBarBatsmanStats ⟨1⟩ [plainSingleBall] =
      Except.error "ReferenceError: ball is not defined" ∧
    liveStatsBarBatsmanStats ⟨1⟩ ([] : List Ball) = Except.ok ⟨0, 0, 0, 0, 0⟩ :=
  ⟨rfl, rfl⟩

/-- Appending one delivery changes each `CompactPlayerStats` batsman
figure by the contribution the source computes for that delivery. -/
lemma calculateBatsmanStats_append (player : Player) (balls : List Ball) (b : Ball) :
    ((calculateBatsmanStats player (balls ++ [b])).runs =
      (calculateBatsmanStats player balls).runs +
        (if b.striker.id == player.id &&
            (!b.isWide && !b.isNoBall && !b.isBye && !b.isLegBye) then b.runs else 0)) ∧
    ((calculateBatsmanStats player (balls ++ [b])).ballsFaced =
      (calculateBatsmanStats player balls).ballsFaced +
        (if b.striker.id == player.id && (!b.isWide && !b.isNoBall) then 1 else 0)) ∧
    ((calculateBatsmanStats player (balls ++ [b])).fours =
      (calculateBatsmanStats player balls).fours +
        (if b.striker.id == player.id && (b.runs == 4) then 1 else 0)) ∧
    ((calculateBatsmanStats player (balls ++ [b])).sixes =
      (calculateBatsmanStats player balls).sixes +
        (if b.striker.id == player.id && (b.runs == 6) then 1 else 0)) := by
  refine ⟨?_, ?_, ?_, ?_⟩ <;>
    simp only [calculateBatsmanStats, List.filter_append, List.filter_singleton,
      List.foldl_append, List.length_append] <;>
    cases hs : (b.striker.id == player.id) <;>
    cases hw : b.isWide <;> cases hn : b.isNoBall <;>
    cases hb : b.isBye <;> cases hl : b.isLegBye <;>
    simp [hs, hw, hn, hb, hl, List.filter_cons, List.filter_nil,
      apply_ite List.length, beq_iff_eq]

/-- Appending one delivery changes each `DetailedScorecardModal` batting
figure by the contribution the source's `forEach` computes for it. -/
lemma calculateBattingStats_append (player : Player) (balls : List Ball) (b : Ball) :
    ((calculateBattingStats player (balls ++ [b])).runs =
      (calculateBattingStats player balls).runs +
        (if b.striker.id == player.id &&
            (!b.isWide && !b.isNoBall && !b.isBye && !b.isLegBye) then b.runs else 0)) ∧
    ((calculateBattingStats player (balls ++ [b])).balls =
      (calculateBattingStats player balls).balls +
        (if b.striker.id == player.id && (!b.isWide && !b.isNoBall) then 1 else 0)) ∧
    ((calculateBattingStats player (balls ++ [b])).fours =
      (calculateBattingStats player balls).fours +
        (if b.striker.id == player.id && (b.runs == 4) then 1 else 0)) ∧
    ((calculateBattingStats player (balls ++ [b])).sixes =
      (calculateBattingStats player balls).sixes +
        (if b.striker.id == player.id && (b.runs == 6) then 1 else 0)) := by
  refine ⟨?_, ?_, ?_, ?_⟩ <;>
    simp only [calculateBattingStats, List.filter_append, List.filter_singleton,
      List.foldl_append] <;>
    cases hs : (b.striker.id == player.id) <;>
    cases hw : b.isWide <;> cases hn : b.isNoBall <;>
    cases hb : b.isBye <;> cases hl : b.isLegBye <;>
    simp [hs, hw, hn, hb, hl, List.filter_cons, List.filter_nil, beq_iff_eq] <;>
    try (split <;> simp)

/-- C2 counterexample: a wide on which 4 were run is counted as a four
by the source, while the claim's plain-delivery tally excludes it. -/
theorem wide_boundary_counted :
    (calculateBatsmanStats ⟨1⟩ [wideFourBall]).fours ≠
      claimedFours ⟨1⟩ [wideFourBall] := by decide

/-- C2 (amended): the fours (sixes) count increments on every delivery
faced by the player whose runs equal 4 (6), regardless of the wide,
no-ball, bye, or leg-bye flags, in both the `CompactPlayerStats` and the
`DetailedScorecardModal` computation. -/
theorem fours_sixes_ignore_extra_flags (player : Player) (balls : List Ball) (b : Ball)
    (hs : b.striker.id = player.id) :
    ((calculateBatsmanStats player (balls ++ [b])).fours =
      (calculateBatsmanStats player balls).fours + (if b.runs = 4 then 1 else 0)) ∧
    ((calculateBatsmanStats player (balls ++ [b])).sixes =
      (calculateBatsmanStats player balls).sixes + (if b.runs = 6 then 1 else 0)) ∧
    ((calculateBattingStats player (balls ++ [b])).fours =
      (calculateBattingStats player balls).fours + (if b.runs = 4 then 1 else 0)) ∧
    ((calculateBattingStats player (balls ++ [b])).sixes =
      (calculateBattingStats player balls).sixes + (if b.runs = 6 then 1 else 0)) := by
  have hs' : (b.striker.id == player.id) = true := by simp [hs]
  obtain ⟨-, -, h4, h6⟩ := calculateBatsmanStats_append player balls b
  obtain ⟨-, -, m4, m6⟩ := calculateBattingStats_append player balls b
  refine ⟨?_, ?_, ?_, ?_⟩ <;> simp only [h4, h6, m4, m6, hs', Bool.true_and] <;>
    simp [beq_iff_eq]

/-- C2 witness: the amended statement instantiated on one wide with 4
runs faced by player 1, appended to the empty ledger. -/
theorem fours_sixes_ignore_extra_flags_witness :
    wideFourBall.striker.id = (⟨1⟩ : Player).id ∧
    (((calculateBatsmanStats ⟨1⟩ ([] ++ [wideFourBall])).fours =
      (calculateBatsmanStats ⟨1⟩ []).fours + (if wideFourBall.runs = 4 then 1 else 0)) ∧
    ((calculateBatsmanStats ⟨1⟩ ([] ++ [wideFourBall])).sixes =
      (calculateBatsmanStats ⟨1⟩ []).sixes + (if wideFourBall.runs = 6 then 1 else 0)) ∧
    ((calculateBattingStats ⟨1⟩ ([] ++ [wideFourBall])).fours =
      (calculateBattingStats ⟨1⟩ []).fours + (if wideFourBall.runs = 4 then 1 else 0)) ∧
    ((calculateBattingStats ⟨1⟩ ([] ++ [wideFourBall])).sixes =
      (calculateBattingStats ⟨1⟩ []).sixes + (if wideFourBall.runs = 6 then 1 else 0))) :=
  ⟨rfl, fours_sixes_ignore_extra_flags ⟨1⟩ [] wideFourBall rfl⟩

/-- C3 counterexample: on a no-ball (not bye or leg-bye) with 2 runs
run, the source credits the striker nothing, while the claim says the 2
runs are credited. -/
theorem noball_runs_not_credited :
    (calculateBatsmanStats ⟨1⟩ [noBallTwoBall]).runs ≠ noBallTwoBall.runs := by decide

/-- C3 (amended): a delivery flagged no-ball never changes the striker's
personal runs total, whether or not it is also flagged bye or leg-bye,
in both the `CompactPlayerStats` and the `DetailedScorecardModal`
computation. -/
theorem noball_never_credits_striker (player : Player) (balls : List Ball) (b : Ball)
    (h : b.isNoBall = true) :
    ((calculateBatsmanStats player (balls ++ [b])).runs =
      (calculateBatsmanStats player balls).runs) ∧
    ((calculateBattingStats player (balls ++ [b])).runs =
      (calculateBattingStats player balls).runs) := by
  obtain ⟨hc, -, -, -⟩ := calculateBatsmanStats_append player balls b
  obtain ⟨hm, -, -, -⟩ := calculateBattingStats_append player balls b
  refine ⟨?_, ?_⟩ <;> simp [hc, hm, h]

/-- C3 witness: the amended statement instantiated on one no-ball with 2
runs run faced by player 1, appended to the empty ledger. -/
theorem noball_never_credits_striker_witness :
    noBallTwoBall.isNoBall = true ∧
    (((calculateBatsmanStats ⟨1⟩ ([] ++ [noBallTwoBall])).runs =
      (calculateBatsmanStats ⟨1⟩ []).runs) ∧
    ((calculateBattingStats ⟨1⟩ ([] ++ [noBallTwoBall])).runs =
      (calculateBattingStats ⟨1⟩ []).runs)) :=
  ⟨rfl, noball_never_credits_striker ⟨1⟩ [] noBallTwoBall rfl⟩

/-- C4 counterexample: a bye delivery does increment the striker's
balls-faced count in the source, while the claim says it is unchanged. -/
theorem bye_increments_balls_faced :
    (calculateBatsmanStats ⟨1⟩ [byeBall]).ballsFaced ≠
      (calculateBatsmanStats ⟨1⟩ ([] : List Ball)).ballsFaced := by decide

/-- C4 (amended): a wide, bye, or leg-bye never changes the striker's
personal runs; the balls-faced count is unchanged by a wide, but a bye
or leg-bye increments it exactly when the delivery is the striker's and
not wide or no-ball.  Holds for the `CompactPlayerStats` and the
`DetailedScorecardModal` computation. -/
theorem wide_bye_legbye_effect (player : Player) (balls : List Ball) (b : Ball)
    (h : b.isWide = true ∨ b.isBye = true ∨ b.isLegBye = true) :
    ((calculateBatsmanStats player (balls ++ [b])).runs =
      (calculateBatsmanStats player balls).runs) ∧
    ((calculateBatsmanStats player (balls ++ [b])).ballsFaced =
      (calculateBatsmanStats player balls).ballsFaced +
        (if b.striker.id == player.id && (!b.isWide && !b.isNoBall) then 1 else 0)) ∧
    ((calculateBattingStats player (balls ++ [b])).runs =
      (calculateBattingStats player balls).runs) ∧
    ((calculateBattingStats player (balls ++ [b])).balls =
      (calculateBattingStats player balls).balls +
        (if b.striker.id == player.id && (!b.isWide && !b.isNoBall) then 1 else 0)) := by
  obtain ⟨hc, hcf, -, -⟩ := calculateBatsmanStats_append player balls b
  obtain ⟨hm, hmf, -, -⟩ := calculateBattingStats_append player balls b
  refine ⟨?_, hcf, ?_, hmf⟩ <;>
    rcases h with h | h | h <;> simp [hc, hm, h]

/-- C4 witness: the amended statement instantiated on one bye with 1 run
faced by player 1, appended to the empty ledger. -/
theorem wide_bye_legbye_effect_witness :
    (byeBall.isWide = true ∨ byeBall.isBye = true ∨ byeBall.isLegBye = true) ∧
    (((calculateBatsmanStats ⟨1⟩ ([] ++ [byeBall])).runs =
      (calculateBatsmanStats ⟨1⟩ []).runs) ∧
    ((calculateBatsmanStats ⟨1⟩ ([] ++ [byeBall])).ballsFaced =
      (calculateBatsmanStats ⟨1⟩ []).ballsFaced +
        (if byeBall.striker.id == (⟨1⟩ : Player).id &&
            (!byeBall.isWide && !byeBall.isNoBall) then 1 else 0)) ∧
    ((calculateBattingStats ⟨1⟩ ([] ++ [byeBall])).runs =
      (calculateBattingStats ⟨1⟩ []).runs) ∧
    ((calculateBattingStats ⟨1⟩ ([] ++ [byeBall])).balls =
      (calculateBattingStats ⟨1⟩ []).balls +
        (if byeBall.striker.id == (⟨1⟩ : Player).id &&
            (!byeBall.isWide && !byeBall.isNoBall) then 1 else 0))) :=
  ⟨by decide, wide_bye_legbye_effect ⟨1⟩ [] byeBall (by decide)⟩

/-- A left fold adding a per-ball contribution is the sum of that
contribution over the list. -/
lemma foldl_eq_sum_map (g : Ball → Nat) (l : List Ball) (n : Nat) :
    l.foldl (fun sum b => sum + g b) n = n + (l.map g).sum := by
  induction l generalizing n with
  | nil => simp
  | cons b t ih => simp [ih, Nat.add_assoc]

/-- The total runs of a list of deliveries split into the credited runs
of plain deliveries and the runs of extra-flagged deliveries. -/
lemma sum_runs_split (l : List Ball) :
    (l.map Ball.runs).sum =
      (l.map (fun b =>
        if !b.isWide && !b.isNoBall && !b.isBye && !b.isLegBye then b.runs else 0)).sum +
      ((l.filter (fun b => b.isWide || b.isNoBall || b.isBye || b.isLegBye)).map Ball.runs).sum := by
  induction l with
  | nil => rfl
  | cons b t ih =>
    cases hw : b.isWide <;> cases hn : b.isNoBall <;>
      cases hb : b.isBye <;> cases hl : b.isLegBye <;>
      simp [hw, hn, hb, hl, List.filter_cons, ih] <;> omega

/-- The `CompactPlayerStats` personal-runs total as a sum of per-ball
credited runs. -/
lemma calculateBatsmanStats_runs_eq (player : Player) (balls : List Ball) :
    (calculateBatsmanStats player balls).runs =
      ((balls.filter (fun b => b.striker.id == player.id)).map
        (fun b =>
          if !b.isWide && !b.isNoBall && !b.isBye && !b.isLegBye then b.runs else 0)).sum := by
  have h : (fun (sum : Nat) (ball : Ball) =>
      if !ball.isWide && !ball.isNoBall && !ball.isBye && !ball.isLegBye then
        sum + ball.runs
      else
        sum) =
      (fun (sum : Nat) (ball : Ball) => sum +
        (if !ball.isWide && !ball.isNoBall && !ball.isBye && !ball.isLegBye then
          ball.runs else 0)) := by
    funext s ball; split <;> simp
  simp only [calculateBatsmanStats, h, foldl_eq_sum_map, Nat.zero_add]

/-- The `LiveScoreboard` personal-runs total as a plain sum. -/
lemma liveScoreboardBatsmanStats_runs_eq (player : Player) (balls : List Ball) :
    (liveScoreboardBatsmanStats player balls).runs =
      ((balls.filter (fun b => b.striker.id == player.id)).map Ball.runs).sum := by
  simp only [liveScoreboardBatsmanStats, foldl_eq_sum_map, Nat.zero_add]

/-- C10 counterexample: on a wide on which 4 were run, the
`LiveScoreboard` projection credits the striker 4 while the
`CompactPlayerStats` projection credits 0. -/
theorem live_compact_runs_disagree :
    (liveScoreboardBatsmanStats ⟨1⟩ [wideFourBall]).runs ≠
      (calculateBatsmanStats ⟨1⟩ [wideFourBall]).runs := by decide

/-- C10 (amended): the `LiveScoreboard` personal-runs total equals the
`CompactPlayerStats` total plus the runs run on the player's
extra-flagged deliveries; in particular the two agree exactly on ledgers
where no delivery faced by the player carries an extra flag. -/
theorem liveScoreboard_runs_decomposition (player : Player) (balls : List Ball) :
    (liveScoreboardBatsmanStats player balls).runs =
      (calculateBatsmanStats player balls).runs + extraFlaggedRuns player balls := by
  rw [liveScoreboardBatsmanStats_runs_eq, calculateBatsmanStats_runs_eq, extraFlaggedRuns]
  exact sum_runs_split _

/-- The batting reduce of `GroupDashboard.calculatePlayerStats`
accumulates, over any start value, the per-match runs and deliveries of
the striker. -/
lemma gdBattingTotals_runs_balls (player : Player) (l : List GDMatch) :
    ∀ acc : GDBattingTotals,
      ((l.foldl
        (fun acc m =>
          let balls := m.balls.filter (fun b => b.striker.id == player.id)
          let runs := balls.foldl (fun sum b => sum + b.runs) 0
          let fours := (balls.filter (fun b => b.runs == 4)).length
          let sixes := (balls.filter (fun b => b.runs == 6)).length
          let highestScore := balls.foldl (fun mx b => max mx b.runs) 0
          ⟨acc.runs + runs, acc.balls + balls.length, acc.fours + fours,
            acc.sixes + sixes, max acc.highestScore highestScore⟩) acc).runs =
        acc.runs + (l.map (fun m =>
          ((m.balls.filter (fun b => b.striker.id == player.id)).map Ball.runs).sum)).sum) ∧
      ((l.foldl
        (fun acc m =>
          let balls := m.balls.filter (fun b => b.striker.id == player.id)
          let runs := balls.foldl (fun sum b => sum + b.runs) 0
          let fours := (balls.filter (fun b => b.runs == 4)).length
          let sixes := (balls.filter (fun b => b.runs == 6)).length
          let highestScore := balls.foldl (fun mx b => max mx b.runs) 0
          ⟨acc.runs + runs, acc.balls + balls.length, acc.fours + fours,
            acc.sixes + sixes, max acc.highestScore highestScore⟩) acc).balls =
        acc.balls + (l.map (fun m =>
          (m.balls.filter (fun b => b.striker.id == player.id)).length)).sum) := by
  induction l with
  | nil => intro acc; simp
  | cons m t ih =>
    intro acc
    simp only [List.foldl_cons, List.map_cons, List.sum_cons]
    refine ⟨?_, ?_⟩
    · rw [(ih _).1]; simp [foldl_eq_sum_map]; ring
    · rw [(ih _).2]; simp; ring

/-- The bowling reduce of `GroupDashboard.calculatePlayerStats`
accumulates, over any start value, the per-match conceded runs, and its
fractional overs total equals the bowled-delivery count divided by 6. -/
lemma gdBowlingTotals_conceded_overs (player : Player) (l : List GDMatch) :
    ∀ acc : GDBowlingTotals,
      ((l.foldl
        (fun acc m =>
          let balls := m.balls.filter (fun b => b.bowler.id == player.id)
          let wickets :=
            (balls.filter (fun b => b.isWicket && b.wicketType != some WicketType.runOut)).length
          let runs := balls.foldl (fun sum b => sum + b.runs) 0
          ⟨acc.wickets + wickets, acc.overs + (balls.length : ℚ) / 6,
            acc.runsConceded + runs⟩) acc).runsConceded =
        acc.runsConceded + (l.map (fun m =>
          ((m.balls.filter (fun b => b.bowler.id == player.id)).map Ball.runs).sum)).sum) ∧
      ((l.foldl
        (fun acc m =>
          let balls := m.balls.filter (fun b => b.bowler.id == player.id)
          let wickets :=
            (balls.filter (fun b => b.isWicket && b.wicketType != some WicketType.runOut)).length
          let runs := balls.foldl (fun sum b => sum + b.runs) 0
          ⟨acc.wickets + wickets, acc.overs + (balls.length : ℚ) / 6,
            acc.runsConceded + runs⟩) acc).overs =
        acc.overs + (((l.map (fun m =>
          (m.balls.filter (fun b => b.bowler.id == player.id)).length)).sum : ℚ)) / 6) := by
  induction l with
  | nil => intro acc; simp
  | cons m t ih =>
    intro acc
    simp only [List.foldl_cons, List.map_cons, List.sum_cons]
    refine ⟨?_, ?_⟩
    · rw [(ih _).1]; simp [foldl_eq_sum_map]; ring
    · rw [(ih _).2]; push_cast; ring

/-- C5 counterexample: for player 1 with 4 runs off 2 deliveries and one
dismissal, the source's batting average is 2 (runs over balls faced)
while the claim's reference average (runs over times dismissed) is 4. -/
theorem average_not_runs_per_dismissal :
    (calculatePlayerStats ⟨1⟩ [statsMatch]).average ≠
      specBattingAverage ⟨1⟩ [statsMatch] := by
  have h1 : (calculatePlayerStats ⟨1⟩ [statsMatch]).average = 2 := by
    simp [calculatePlayerStats, playerMatches, gdBattingTotals, gdBowlingTotals,
      gdFieldingTotals, statsMatch, plainFourBall, bowledDismissalBall, toFixed2]
    have e : ((4 : ℚ) / 2) * 100 = 200 := by norm_num
    rw [e]
    norm_num [round_ofNat]
  have h2 : specBattingAverage ⟨1⟩ [statsMatch] = 4 := by
    simp [specBattingAverage, totalRunsScored, specTimesOut, playerMatches,
      statsMatch, plainFourBall, bowledDismissalBall]
  rw [h1, h2]
  norm_num

/-- C5 (amended): the rates stored by `GroupDashboard` are recomputed
from the accumulated totals as: batting average = runs scored over
deliveries faced (not over dismissals), strike rate = that quotient
times 100, economy = runs conceded over bowled-deliveries-over-six, each
with a zero divisor replaced by 1 and rounded to two decimals. -/
theorem derived_rates_from_totals (player : Player) (ms : List GDMatch) :
    (calculatePlayerStats player ms).average =
      toFixed2 ((totalRunsScored player ms : ℚ) /
        (if totalBallsFaced player ms = 0 then 1 else (totalBallsFaced player ms : ℚ))) ∧
    (calculatePlayerStats player ms).strikeRate =
      toFixed2 (((totalRunsScored player ms : ℚ) /
        (if totalBallsFaced player ms = 0 then 1 else (totalBallsFaced player ms : ℚ))) * 100) ∧
    (calculatePlayerStats player ms).economy =
      toFixed2 ((totalRunsConceded player ms : ℚ) /
        (if totalBallsBowled player ms = 0 then 1
          else (totalBallsBowled player ms : ℚ) / 6)) := by
  have hb := gdBattingTotals_runs_balls player (playerMatches player ms) ⟨0, 0, 0, 0, 0⟩
  have hw := gdBowlingTotals_conceded_overs player (playerMatches player ms) ⟨0, 0, 0⟩
  have hruns : (gdBattingTotals player (playerMatches player ms)).runs =
      totalRunsScored player ms := by
    simpa [gdBattingTotals, totalRunsScored] using hb.1
  have hballs : (gdBattingTotals player (playerMatches player ms)).balls =
      totalBallsFaced player ms := by
    simpa [gdBattingTotals, totalBallsFaced] using hb.2
  have hconc : (gdBowlingTotals player (playerMatches player ms)).runsConceded =
      totalRunsConceded player ms := by
    simpa [gdBowlingTotals, totalRunsConceded] using hw.1
  have hovers : (gdBowlingTotals player (playerMatches player ms)).overs =
      (totalBallsBowled player ms : ℚ) / 6 := by
    simpa [gdBowlingTotals, totalBallsBowled] using hw.2
  refine ⟨?_, ?_, ?_⟩
  · simp only [calculatePlayerStats, hruns, hballs]
  · simp only [calculatePlayerStats, hruns, hballs]
  · by_cases hL : totalBallsBowled player ms = 0
    · simp [calculatePlayerStats, hconc, hovers, hL]
    · have h6 : ((totalBallsBowled player ms : ℚ) / 6) ≠ 0 := by
        simp [div_eq_zero_iff, hL]
      simp [calculatePlayerStats, hconc, hovers, h6, hL]

/-- C7: with a run-out on the very first delivery of the innings (4 runs
run on it), the displayed partnership includes that wicket delivery —
`(4, 1)` — while the partnership the claim describes restarts after the
wicket and is `(0, 0)`: JS `pop() || -1` conflates the wicket index `0`
with "no wicket". -/
theorem partnership_first_ball_wicket_bug :
    calculatePartnership (some ⟨1⟩) (some ⟨2⟩) false [firstBallWicket] = (4, 1) ∧
    refPartnership false [firstBallWicket] = (0, 0) ∧
    calculatePartnership (some ⟨1⟩) (some ⟨2⟩) false [firstBallWicket] ≠
      refPartnership false [firstBallWicket] := by
  refine ⟨by decide, by decide, by decide⟩

end ScoreWise
